import Mathlib

/-!
Verification of the record-store layer of the AI-CARE admin dashboard
(`gsheets_manager.py` and the alert-analysis classification in `app.py`).

The embedding models the spreadsheet backing store as a list of rows of
string cells, records as association lists produced by zipping the declared
column schema with a (padded) row, and adapter failures as an explicit
`Adapter` outcome.  All functions are translated directly from the Python
source; dates are modelled with an explicit civil-calendar day-number
conversion mirroring `datetime.strptime("%Y-%m-%d")` and date subtraction.
-/

-- ============================================================
-- Python string primitives used by the source
-- ============================================================

/-- The whitespace set stripped by Python's `str.strip()`: the ASCII
whitespace characters including the separators `\x1c`-`\x1f`, plus NEL,
NBSP, and the Unicode space characters (`str.isspace()` semantics). -/
def isPyWs (c : Char) : Bool :=
  c == ' ' || c == '\t' || c == '\n' || c == '\r' || c == '\x0b' || c == '\x0c'
  || ('\x1c' ≤ c && c ≤ '\x1f') || c == '\x85' || c == '\xa0'
  || c == '\u1680' || ('\u2000' ≤ c && c ≤ '\u200a')
  || c == '\u2028' || c == '\u2029' || c == '\u202f' || c == '\u205f'
  || c == '\u3000'

/-- `str.strip()` on a character list. -/
def pyStripL (l : List Char) : List Char :=
  ((l.dropWhile isPyWs).reverse.dropWhile isPyWs).reverse

/-- `s.split('.')[0]`: everything before the first dot. -/
def truncAtDot (l : List Char) : List Char :=
  l.takeWhile (fun c => c != '.')

/-- A spreadsheet/dict cell value as seen through `get_all_records`:
either a string or an integer (gspread coerces numeric-looking cells). -/
inductive CellVal : Type where
  | str (s : String)
  | int (n : ℤ)
deriving DecidableEq

/-- Python `str()` applied to a cell value. -/
def pyStrOf : CellVal → String
  | .str s => s
  | .int n => toString n

/-- Python truthiness of a cell value (`""` and `0` are falsy). -/
def CellVal.truthy : CellVal → Bool
  | .str s => s != ""
  | .int n => n != 0

-- ============================================================
-- normalize_phone / normalize_password (gsheets_manager.py 159-177)
-- ============================================================

/-- Core of `normalize_phone` on the characters of `str(phone)`:
strip, cut at the first dot if present, and prepend a `'0'` to a
9-character result that does not already start with `'0'`. -/
def normPhoneCore (l : List Char) : List Char :=
  let s := pyStripL l
  let s := if s.contains '.' then truncAtDot s else s
  if s.length = 9 && !(s.head? == some '0') then '0' :: s else s

/-- `normalize_phone(phone)`; `none` models the Python `None` input. -/
def normalizePhone (x : Option CellVal) : String :=
  match x with
  | none => ""
  | some v => String.mk (normPhoneCore (pyStrOf v).toList)

/-- `normalize_phone` on a plain string argument. -/
def normalizePhoneStr (s : String) : String :=
  normalizePhone (some (.str s))

/-- Core of `normalize_password`: strip and cut at the first dot. -/
def normPwdCore (l : List Char) : List Char :=
  let s := pyStripL l
  if s.contains '.' then truncAtDot s else s

/-- `normalize_password(password)`; `none` models the Python `None` input. -/
def normalizePassword (x : Option CellVal) : String :=
  match x with
  | none => ""
  | some v => String.mk (normPwdCore (pyStrOf v).toList)

-- ============================================================
-- Schema registry (gsheets_manager.py 28-80)
-- ============================================================

/-- The declared `Patients` schema (41 columns). -/
def PATIENT_COLUMNS : List String :=
  ["patient_id", "name", "phone", "password", "birth_date", "age", "gender",
   "id_number", "emergency_contact", "emergency_phone",
   "diagnosis", "pathology", "clinical_stage", "pathological_stage",
   "tumor_location", "tumor_size", "histology_type",
   "surgery_type", "surgery_date", "surgery_approach", "resection_extent",
   "lymph_node_dissection", "surgical_margin", "complications",
   "adjuvant_chemo", "adjuvant_radio", "target_therapy", "immunotherapy",
   "treatment_status", "treatment_notes",
   "comorbidities", "smoking_history", "risk_level",
   "ecog_ps", "kps_score",
   "status", "post_op_day", "consent_agreed", "consent_time", "registered_at",
   "notes"]

/-- The declared `Reports` schema (16 columns). -/
def REPORT_COLUMNS : List String :=
  ["report_id", "patient_id", "patient_name", "date", "timestamp",
   "overall_score", "symptoms", "messages_count",
   "conversation", "ai_summary",
   "alert_level", "alert_handled", "handled_by", "handled_time",
   "handling_action", "handling_notes"]

-- ============================================================
-- Dates: datetime.strptime("%Y-%m-%d") and date subtraction
-- ============================================================

/-- Gregorian leap-year rule. -/
def isLeapYear (y : ℕ) : Bool :=
  y % 4 = 0 && (y % 100 != 0 || y % 400 = 0)

/-- Length of a month in the proleptic Gregorian calendar. -/
def daysInMonth (y m : ℕ) : ℕ :=
  if m = 2 then (if isLeapYear y then 29 else 28)
  else if m = 4 || m = 6 || m = 9 || m = 11 then 30
  else 31

/-- Decimal value of a digit string. -/
def digitsVal (l : List Char) : ℕ :=
  l.foldl (fun a c => a * 10 + (c.toNat - 48)) 0

/-- Split a character list at `'-'` separators. -/
def splitOnDashAux : List Char → List Char → List (List Char)
  | [], acc => [acc.reverse]
  | c :: rest, acc =>
      if c = '-' then acc.reverse :: splitOnDashAux rest []
      else splitOnDashAux rest (c :: acc)

/-- All `'-'`-separated components of a string. -/
def splitOnDash (s : String) : List (List Char) :=
  splitOnDashAux s.toList []

/-- `datetime.strptime(s, "%Y-%m-%d")`: a 4-digit year, a 1-2 digit month
in 1..12, a 1-2 digit day valid for that month and year, and nothing else.
Returns `(year, month, day)` on success. -/
def parseDate (s : String) : Option (ℕ × ℕ × ℕ) :=
  match splitOnDash s with
  | [yl, ml, dl] =>
      if yl.length = 4 && yl.all Char.isDigit
          && (ml.length = 1 || ml.length = 2) && ml.all Char.isDigit
          && (dl.length = 1 || dl.length = 2) && dl.all Char.isDigit then
        let y := digitsVal yl
        let m := digitsVal ml
        let d := digitsVal dl
        if 1 ≤ y && 1 ≤ m && m ≤ 12 && 1 ≤ d && d ≤ daysInMonth y m then
          some (y, m, d)
        else none
      else none
  | _ => none

/-- Day number of a civil date (days since 1970-01-01, Rata Die shifted),
the standard days-from-civil algorithm; used to model Python's
`(date1 - date2).days`. -/
def dayNumber (y m d : ℕ) : ℤ :=
  let y' := if m ≤ 2 then y - 1 else y
  let era := y' / 400
  let yoe := y' % 400
  let mp := if 2 < m then m - 3 else m + 9
  let doy := (153 * mp + 2) / 5 + d - 1
  let doe := yoe * 365 + yoe / 4 - yoe / 100 + doy
  (era * 146097 + doe : ℤ) - 719468

/-- `(today - surgery_date).days` for a pair of `(y, m, d)` dates. -/
def dateDiffDays (today surgery : ℕ × ℕ × ℕ) : ℤ :=
  dayNumber today.1 today.2.1 today.2.2 - dayNumber surgery.1 surgery.2.1 surgery.2.2

-- ============================================================
-- Backing store adapter outcomes and records
-- ============================================================

/-- Outcome of talking to the backing store: the spreadsheet connection
may be absent (`unreachable`, the `if not spreadsheet` branch), a call
inside the `try` block may raise (`failed`), or the data is available. -/
inductive Adapter (α : Type) : Type where
  | unreachable
  | failed
  | ok (val : α)

/-- A record as produced by `worksheet.get_all_records()`:
an association list from column name to cell value. -/
def RecordT : Type := List (String × CellVal)

/-- `record.get(k)` (None when the key is absent). -/
def rget (rec : RecordT) (k : String) : Option CellVal :=
  (rec.find? (fun kv => kv.1 == k)).map (fun kv => kv.2)

/-- `record[k] = v`: replace the first binding of `k`, or append one. -/
def rset : RecordT → String → CellVal → RecordT
  | [], k, v => [(k, v)]
  | kv :: rest, k, v =>
      if kv.1 == k then (k, v) :: rest else kv :: rset rest k v

/-- Pad a row with empty cells up to the given width. -/
def padTo (n : ℕ) (row : List String) : List String :=
  row ++ List.replicate (n - row.length) ""

/-- `get_all_records()` for the `Patients` sheet: zip the declared header
with each (padded) data row. -/
def recordsOfSheet (sheet : List (List String)) : List RecordT :=
  sheet.map (fun row =>
    (PATIENT_COLUMNS.zip (padTo PATIENT_COLUMNS.length row)).map
      (fun kv => (kv.1, CellVal.str kv.2)))

/-- Cell of a raw `Patients` row under a declared column name. -/
def getCell (row : List String) (col : String) : String :=
  match PATIENT_COLUMNS.findIdx? (fun c => c == col) with
  | some i => row.getD i ""
  | none => ""

-- ============================================================
-- get_all_patients_cached (gsheets_manager.py 187-215)
-- ============================================================

/-- The per-record normalization loop of `get_all_patients_cached`:
normalize `phone` and `password`, then derive `post_op_day` from
`surgery_date` (0 if the field is falsy or fails to parse). -/
def annotateRecord (today : ℕ × ℕ × ℕ) (rec : RecordT) : RecordT :=
  let r1 := rset rec "phone" (.str (normalizePhone (rget rec "phone")))
  let r2 := rset r1 "password" (.str (normalizePassword (rget r1 "password")))
  let pod : ℤ :=
    match rget r2 "surgery_date" with
    | some v =>
        if v.truthy then
          match parseDate (pyStrOf v) with
          | some ymd => dateDiffDays today ymd
          | none => 0
        else 0
    | none => 0
  rset r2 "post_op_day" (.int pod)

/-- `get_all_patients_cached()`: empty list on any adapter failure,
otherwise the normalized records. -/
def getAllPatients (a : Adapter (List (List String))) (today : ℕ × ℕ × ℕ) :
    List RecordT :=
  match a with
  | .unreachable => []
  | .failed => []
  | .ok sheet => (recordsOfSheet sheet).map (annotateRecord today)

/-- `get_patient_by_id(patient_id)`: linear scan for the first record whose
`patient_id` equals the argument. -/
def getPatientById (a : Adapter (List (List String))) (today : ℕ × ℕ × ℕ)
    (patient_id : String) : Option RecordT :=
  (getAllPatients a today).find? (fun r =>
    match rget r "patient_id" with
    | some v => pyStrOf v == patient_id
    | none => false)

-- ============================================================
-- generate_unique_patient_id (gsheets_manager.py 243-270)
-- ============================================================

/-- The clock and random streams consumed by the identifier generator:
`strftime` snapshots and, per attempt, the 3-digit and 6-character
random suffixes. -/
structure GenEnv : Type where
  mmddhhmm : String
  mmdd : String
  fullts : String
  rand3 : ℕ → String
  rand6 : ℕ → String

/-- Python `s[-4:]`. -/
def lastChars (n : ℕ) (s : String) : String :=
  String.mk (s.toList.drop (s.toList.length - n))

/-- The candidate identifier produced at a given attempt number. -/
def candidateId (env : GenEnv) (phone4 : String) (attempt : ℕ) : String :=
  if attempt = 0 then "P" ++ phone4 ++ env.mmddhhmm
  else if attempt < 10 then "P" ++ phone4 ++ env.mmdd ++ env.rand3 attempt
  else "P" ++ env.rand6 attempt

/-- `{r.get("patient_id", "") for r in records}` read from the sheet. -/
def existingIds (sheet : List (List String)) : List String :=
  sheet.map (fun row => getCell row "patient_id")

/-- `generate_unique_patient_id(worksheet, phone)`: try 100 tiered
candidates against the existing identifiers, then fall back to a full
timestamp identifier (returned without any membership check). -/
def generateUniquePatientId (sheet : List (List String)) (phone : String)
    (env : GenEnv) : String :=
  let ph := normalizePhoneStr phone
  let existing := existingIds sheet
  let p4 := lastChars 4 ph
  match (List.range 100).find? (fun a => !(existing.contains (candidateId env p4 a))) with
  | some a => candidateId env p4 a
  | none => "P" ++ env.fullts

-- ============================================================
-- create_patient (gsheets_manager.py 272-312)
-- ============================================================

/-- `patient_data.get(k, default)` on the input dict. -/
def pget (d : List (String × String)) (k dflt : String) : String :=
  match d.find? (fun kv => kv.1 == k) with
  | some kv => kv.2
  | none => dflt

/-- The 17-value row appended by `create_patient` (the `0` cell and the
two `datetime.now().isoformat()` cells are the `post_op_day`, consent-time
and registration stamps of the source, as strings). -/
def createPatientRow (pid : String) (d : List (String × String))
    (phone nowIso : String) : List String :=
  [pid,
   pget d "name" "",
   phone,
   pget d "password" "",
   pget d "age" "",
   pget d "gender" "",
   pget d "surgery_type" "待設定",
   pget d "surgery_date" "",
   pget d "diagnosis" "",
   pget d "medical_record" "",
   pget d "status" "pending_setup",
   "0",
   pget d "consent_agreed" "Y",
   nowIso,
   nowIso,
   "",
   ""]

/-- `create_patient(patient_data)`: `None` on any adapter failure, else
generate an identifier, append the row, and return the identifier
together with the resulting sheet. -/
def createPatient (a : Adapter (List (List String)))
    (d : List (String × String)) (env : GenEnv) (nowIso : String) :
    Option String × List (List String) :=
  match a with
  | .unreachable => (none, [])
  | .failed => (none, [])
  | .ok sheet =>
      let phone := normalizePhoneStr (pget d "phone" "")
      let pid := generateUniquePatientId sheet phone env
      (some pid, sheet ++ [createPatientRow pid d phone nowIso])

-- ============================================================
-- update_patient (gsheets_manager.py 314-339)
-- ============================================================

/-- One `update_cell(row, col, value)`: pad the row to the column and set it. -/
def setCellAt (row : List String) (i : ℕ) (v : String) : List String :=
  (padTo (i + 1) row).set i v

/-- The inner update loop: every update key declared in `PATIENT_COLUMNS`
is written to its schema column; unknown keys are silently ignored. -/
def applyUpdates (row : List String) (updates : List (String × String)) :
    List String :=
  updates.foldl (fun r kv =>
    match PATIENT_COLUMNS.findIdx? (fun c => c == kv.1) with
    | some i => setCellAt r i kv.2
    | none => r) row

/-- Row scan of `update_patient`: patch the first row whose `patient_id`
matches and report success, else report failure leaving rows untouched. -/
def updatePatientRows : List (List String) → String → List (String × String) →
    Bool × List (List String)
  | [], _, _ => (false, [])
  | row :: rest, pid, updates =>
      if getCell row "patient_id" = pid then
        (true, applyUpdates row updates :: rest)
      else
        let res := updatePatientRows rest pid updates
        (res.1, row :: res.2)

/-- `update_patient(patient_id, updates)`: `False` on any adapter failure,
else the row scan above. -/
def updatePatient (a : Adapter (List (List String))) (pid : String)
    (updates : List (String × String)) : Bool × List (List String) :=
  match a with
  | .unreachable => (false, [])
  | .failed => (false, [])
  | .ok sheet => updatePatientRows sheet pid updates

-- ============================================================
-- Reports (gsheets_manager.py 345-451)
-- ============================================================

/-- A `Reports` record under the declared 16-column schema. -/
structure Report : Type where
  report_id : String := ""
  patient_id : String := ""
  patient_name : String := ""
  date : String := ""
  timestamp : String := ""
  overall_score : String := ""
  symptoms : String := ""
  messages_count : String := ""
  conversation : String := ""
  ai_summary : String := ""
  alert_level : String := ""
  alert_handled : String := ""
  handled_by : String := ""
  handled_time : String := ""
  handling_action : String := ""
  handling_notes : String := ""
deriving DecidableEq

/-- `get_all_reports_cached()`: empty list on any adapter failure. -/
def getAllReports (a : Adapter (List Report)) : List Report :=
  match a with
  | .unreachable => []
  | .failed => []
  | .ok reports => reports

/-- `get_pending_alerts()`: reports whose `alert_level` is `red` or
`yellow` and whose `alert_handled` is not `Y`. -/
def getPendingAlerts (reports : List Report) : List Report :=
  reports.filter (fun r =>
    (r.alert_level == "red" || r.alert_level == "yellow")
      && !(r.alert_handled == "Y"))

/-- The cell updates `handle_alert` performs on the matched report:
stamp `alert_handled = "Y"`, the handler and the handling time, and
overwrite action/notes only when the arguments are non-empty. -/
def applyHandle (r : Report) (handler now action notes : String) : Report :=
  { r with
    alert_handled := "Y"
    handled_by := handler
    handled_time := now
    handling_action := if action ≠ "" then action else r.handling_action
    handling_notes := if notes ≠ "" then notes else r.handling_notes }

/-- `handle_alert(report_id, handler, ...)`: patch the first report whose
`report_id` matches and report success, else report failure. -/
def handleAlert : List Report → String → String → String → String → String →
    Bool × List Report
  | [], _, _, _, _, _ => (false, [])
  | r :: rs, rid, handler, now, action, notes =>
      if r.report_id = rid then (true, applyHandle r handler now action notes :: rs)
      else
        let res := handleAlert rs rid handler now action notes
        (res.1, r :: res.2)

-- ============================================================
-- Alert classification in the analysis view (app.py 690-733)
-- ============================================================

/-- A report as consumed by `render_alert_analysis`: only the numeric
`overall_score` matters for classification. -/
structure ScoredReport : Type where
  overall_score : ℚ
deriving DecidableEq

/-- `red_alerts = [r for r in reports if r.get("overall_score", 0) >= 7]`. -/
def red_alerts (reports : List ScoredReport) : List ScoredReport :=
  reports.filter (fun r => decide (7 ≤ r.overall_score))

/-- `yellow_alerts = [r for r in reports if 4 <= r.get("overall_score", 0) <= 6]`. -/
def yellow_alerts (reports : List ScoredReport) : List ScoredReport :=
  reports.filter (fun r =>
    decide (4 ≤ r.overall_score) && decide (r.overall_score ≤ 6))

/-- The `"正常(<4分)"` bucket of the alert-level distribution. -/
def normal_reports (reports : List ScoredReport) : List ScoredReport :=
  reports.filter (fun r => decide (r.overall_score < 4))

/-- The trend classifier
`lambda x: '紅色' if x >= 7 else ('黃色' if x >= 4 else '正常')`. -/
def alert_type (x : ℚ) : String :=
  if 7 ≤ x then "紅色" else if 4 ≤ x then "黃色" else "正常"

-- ============================================================
-- A filtered list read (get_education_pushes_cached, 457-473)
-- ============================================================

/-- A generic row of one of the supporting tables. -/
def GRow : Type := List (String × String)

/-- `r.get(k)` with default `""`. -/
def gget (r : GRow) (k : String) : String :=
  match r.find? (fun kv => kv.1 == k) with
  | some kv => kv.2
  | none => ""

/-- `get_education_pushes_cached(patient_id)`: empty on any adapter
failure, else all records or — when a truthy `patient_id` is given —
the records belonging to that patient. -/
def getEducationPushes (a : Adapter (List GRow)) (patient_id : Option String) :
    List GRow :=
  match a with
  | .unreachable => []
  | .failed => []
  | .ok records =>
      match patient_id with
      | some pid => if pid ≠ "" then records.filter (fun r => gget r "patient_id" == pid) else records
      | none => records

-- ============================================================
-- Helper lemmas: characters, stripping, truncation
-- ============================================================
theorem dropWhile_all_false {p : Char → Bool} {l : List Char}
    (h : ∀ c ∈ l, p c = false) : l.dropWhile p = l := by
  cases l with
  | nil => rfl
  | cons a t =>
      have ha : p a = false := h a (List.mem_cons_self a t)
      simp [List.dropWhile_cons, ha]

theorem pyStripL_id {l : List Char} (h : ∀ c ∈ l, isPyWs c = false) :
    pyStripL l = l := by
  unfold pyStripL
  rw [dropWhile_all_false h]
  rw [dropWhile_all_false (fun c hc => h c (List.mem_reverse.mp hc))]
  exact List.reverse_reverse l

theorem mem_takeWhile_pred {p : Char → Bool} :
    ∀ {l : List Char} {c : Char}, c ∈ l.takeWhile p → p c = true := by
  intro l
  induction l with
  | nil => intro c hc; simp [List.takeWhile] at hc
  | cons a t ih =>
      intro c hc
      by_cases hp : p a
      · rw [List.takeWhile_cons_of_pos hp] at hc
        rcases List.mem_cons.mp hc with h1 | h2
        · rwa [h1]
        · exact ih h2
      · rw [List.takeWhile_cons_of_neg hp] at hc
        cases hc

theorem not_dot_mem_truncAtDot {l : List Char} : '.' ∉ truncAtDot l := by
  intro h
  have := mem_takeWhile_pred h
  simp at this

theorem not_mem_of_contains_false {l : List Char} {c : Char}
    (h : l.contains c = false) : c ∉ l := by
  intro hm
  have h2 : l.elem c = true := List.elem_iff.mpr hm
  rw [show l.contains c = l.elem c from rfl] at h
  rw [h2] at h
  cases h

theorem contains_false_of_not_mem {l : List Char} {c : Char}
    (h : c ∉ l) : l.contains c = false := by
  cases hb : l.contains c with
  | false => rfl
  | true =>
      exact absurd (List.elem_iff.mp (by rw [show l.elem c = l.contains c from rfl, hb])) h

theorem mem_pyStripL {l : List Char} {c : Char} (h : c ∈ pyStripL l) : c ∈ l := by
  unfold pyStripL at h
  rw [List.mem_reverse] at h
  have h2 := List.dropWhile_subset _ h
  rw [List.mem_reverse] at h2
  exact List.dropWhile_subset _ h2

theorem mem_normPhoneCore {l : List Char} {c : Char} (h : c ∈ normPhoneCore l) :
    c = '0' ∨ c ∈ l := by
  simp only [normPhoneCore] at h
  split at h
  · split at h
    · rcases List.mem_cons.mp h with h0 | hm
      · exact Or.inl h0
      · exact Or.inr (mem_pyStripL (List.takeWhile_subset _ hm))
    · exact Or.inr (mem_pyStripL (List.takeWhile_subset _ h))
  · split at h
    · rcases List.mem_cons.mp h with h0 | hm
      · exact Or.inl h0
      · exact Or.inr (mem_pyStripL hm)
    · exact Or.inr (mem_pyStripL h)

theorem no_dot_normPhoneCore (l : List Char) : '.' ∉ normPhoneCore l := by
  intro h
  simp only [normPhoneCore] at h
  split at h
  · split at h
    · rcases List.mem_cons.mp h with h0 | hm
      · exact absurd h0 (by decide)
      · exact not_dot_mem_truncAtDot hm
    · exact not_dot_mem_truncAtDot h
  · next hcf =>
      have hnm : '.' ∉ pyStripL l := not_mem_of_contains_false (by simpa using hcf)
      split at h
      · rcases List.mem_cons.mp h with h0 | hm
        · exact absurd h0 (by decide)
        · exact hnm hm
      · exact hnm h

theorem no_ws_normPhoneCore {l : List Char} (h : ∀ c ∈ l, isPyWs c = false) :
    ∀ c ∈ normPhoneCore l, isPyWs c = false := by
  intro c hc
  rcases mem_normPhoneCore hc with h0 | hm
  · subst h0; decide
  · exact h c hm

theorem normPhoneCore_pad_stable (l : List Char) :
    ((normPhoneCore l).length = 9 && !((normPhoneCore l).head? == some '0')) = false := by
  simp only [normPhoneCore]
  split
  · split
    · simp
    · next h9 => simpa using h9
  · split
    · simp
    · next h9 => simpa using h9

theorem normPhoneCore_stable {r : List Char} (hws : ∀ c ∈ r, isPyWs c = false)
    (hcont : r.contains '.' = false)
    (hpad : (r.length = 9 && !(r.head? == some '0')) = false) :
    normPhoneCore r = r := by
  simp only [normPhoneCore]
  rw [pyStripL_id hws]
  simp only [hcont, Bool.false_eq_true, if_false]
  rw [hpad]
  simp

theorem normPhoneCore_idem {l : List Char} (h : ∀ c ∈ l, isPyWs c = false) :
    normPhoneCore (normPhoneCore l) = normPhoneCore l :=
  normPhoneCore_stable (no_ws_normPhoneCore h)
    (contains_false_of_not_mem (no_dot_normPhoneCore l))
    (normPhoneCore_pad_stable l)

theorem normalizePhoneStr_idem_of_no_ws (s : String)
    (h : ∀ c ∈ s.toList, isPyWs c = false) :
    normalizePhoneStr (normalizePhoneStr s) = normalizePhoneStr s := by
  show String.mk (normPhoneCore (String.mk (normPhoneCore s.toList)).toList) =
    String.mk (normPhoneCore s.toList)
  exact congrArg String.mk (normPhoneCore_idem h)

theorem no_dot_normPwdCore (l : List Char) : '.' ∉ normPwdCore l := by
  intro h
  simp only [normPwdCore] at h
  split at h
  · exact not_dot_mem_truncAtDot h
  · next hcf => exact not_mem_of_contains_false (by simpa using hcf) h

-- ============================================================
-- Helper lemmas: records, updates, alert handling, generator
-- ============================================================

theorem rget_rset_self (rec : RecordT) (k : String) (v : CellVal) :
    rget (rset rec k v) k = some v := by
  induction rec with
  | nil => simp [rget, rset, List.find?]
  | cons kv rest ih =>
      by_cases hk : kv.1 == k
      · simp [rset, hk, rget, List.find?]
      · simp only [rset, hk, Bool.false_eq_true, if_false]
        simp only [rget, List.find?, hk]
        exact ih

theorem rget_rset_ne (rec : RecordT) (k k' : String) (v : CellVal)
    (h : k' ≠ k) : rget (rset rec k v) k' = rget rec k' := by
  induction rec with
  | nil =>
      simp [rget, rset, List.find?, show (k == k') = false from by
        simp [Ne.symm h]]
  | cons kv rest ih =>
      by_cases hk : kv.1 == k
      · have hkk : kv.1 = k := by simpa using hk
        simp only [rset, hk, if_true]
        simp [rget, List.find?, show (k == k') = false from by simp [Ne.symm h], hkk]
      · simp only [rset, hk, Bool.false_eq_true, if_false]
        by_cases hk' : kv.1 == k'
        · simp [rget, List.find?, hk']
        · simp only [rget, List.find?, hk']
          exact ih

theorem updatePatientRows_not_found :
    ∀ (sheet : List (List String)) (pid : String)
      (updates : List (String × String)),
      (∀ row ∈ sheet, getCell row "patient_id" ≠ pid) →
      updatePatientRows sheet pid updates = (false, sheet) := by
  intro sheet pid updates
  induction sheet with
  | nil => intro _; rfl
  | cons row rest ih =>
      intro h
      have hrow := h row (List.mem_cons_self _ _)
      simp only [updatePatientRows, if_neg hrow]
      rw [ih (fun r hr => h r (List.mem_cons_of_mem _ hr))]

theorem applyHandle_idem (r : Report) (handler now action notes : String) :
    applyHandle (applyHandle r handler now action notes) handler now action notes =
      applyHandle r handler now action notes := by
  by_cases ha : action = "" <;> by_cases hn : notes = "" <;>
    simp [applyHandle, ha, hn]

theorem handleAlert_fst_true :
    ∀ (table : List Report) (rid handler now action notes : String),
      (∃ r ∈ table, r.report_id = rid) →
      (handleAlert table rid handler now action notes).1 = true := by
  intro table rid handler now action notes h
  induction table with
  | nil => obtain ⟨r, hr, _⟩ := h; cases hr
  | cons hd tl ih =>
      by_cases hh : hd.report_id = rid
      · simp [handleAlert, hh]
      · simp only [handleAlert, hh, if_neg, Bool.false_eq_true, if_false]
        apply ih
        obtain ⟨r, hr, hrid⟩ := h
        rcases List.mem_cons.mp hr with h1 | h2
        · exact absurd (h1 ▸ hrid) hh
        · exact ⟨r, h2, hrid⟩

theorem handleAlert_alert_level :
    ∀ (table : List Report) (rid handler now action notes : String) (i : ℕ),
      (((handleAlert table rid handler now action notes).2.get? i).map Report.alert_level) =
        ((table.get? i).map Report.alert_level) := by
  intro table rid handler now action notes
  induction table with
  | nil => intro i; rfl
  | cons hd tl ih =>
      intro i
      by_cases hh : hd.report_id = rid
      · simp only [handleAlert, hh, if_true]
        cases i with
        | zero => rfl
        | succ j => rfl
      · simp only [handleAlert, hh, Bool.false_eq_true, if_false]
        cases i with
        | zero => rfl
        | succ j => exact ih j

theorem handleAlert_handled_preserved :
    ∀ (table : List Report) (rid handler now action notes : String) (i : ℕ)
      (r r' : Report),
      table.get? i = some r →
      (handleAlert table rid handler now action notes).2.get? i = some r' →
      r.alert_handled = "Y" → r'.alert_handled = "Y" := by
  intro table rid handler now action notes
  induction table with
  | nil => intro i r r' h1; cases i <;> cases h1
  | cons hd tl ih =>
      intro i r r' h1 h2 hy
      by_cases hh : hd.report_id = rid
      · simp only [handleAlert, hh, if_true] at h2
        cases i with
        | zero =>
            cases h1; cases h2; rfl
        | succ j =>
            have : tl.get? j = some r := h1
            have h2' : tl.get? j = some r' := h2
            rw [this] at h2'; cases h2'; exact hy
      · simp only [handleAlert, hh, Bool.false_eq_true, if_false] at h2
        cases i with
        | zero =>
            cases h1; cases h2; exact hy
        | succ j => exact ih j r r' h1 h2 hy

theorem handleAlert_idem :
    ∀ (table : List Report) (rid handler now action notes : String),
      (∃ r ∈ table, r.report_id = rid) →
      handleAlert ((handleAlert table rid handler now action notes).2)
          rid handler now action notes =
        (true, (handleAlert table rid handler now action notes).2) := by
  intro table rid handler now action notes h
  induction table with
  | nil => obtain ⟨r, hr, _⟩ := h; cases hr
  | cons hd tl ih =>
      by_cases hh : hd.report_id = rid
      · simp only [handleAlert, hh, if_true]
        have hid : (applyHandle hd handler now action notes).report_id = hd.report_id := rfl
        simp only [handleAlert, hid, hh, if_true, applyHandle_idem]
      · simp only [handleAlert, hh, Bool.false_eq_true, if_false]
        have hx : ∃ r ∈ tl, r.report_id = rid := by
          obtain ⟨r, hr, hrid⟩ := h
          rcases List.mem_cons.mp hr with h1 | h2
          · exact absurd (h1 ▸ hrid) hh
          · exact ⟨r, h2, hrid⟩
        have := ih hx
        simp only [handleAlert, hh, Bool.false_eq_true, if_false, this]

/-- C1 (amended): the trend classifier of `render_alert_analysis` assigns
red iff the overall score is at least 7, yellow iff it is at least 4 and
below 7, and normal (green) iff it is below 4; the red and normal list
filters agree with that on all scores, while the yellow list filter counts
a report iff its score lies in the closed interval [4, 6] — which coincides
with 4 <= s < 7 on integer scores; the boundary scores 3.99, 4, 6 and 7
classify as normal, yellow, yellow and red respectively. -/
theorem alert_classification_amended :
    (∀ s : ℚ, alert_type s = "紅色" ↔ 7 ≤ s)
    ∧ (∀ s : ℚ, alert_type s = "黃色" ↔ 4 ≤ s ∧ s < 7)
    ∧ (∀ s : ℚ, alert_type s = "正常" ↔ s < 4)
    ∧ (∀ (l : List ScoredReport) (r : ScoredReport),
        r ∈ red_alerts l ↔ r ∈ l ∧ 7 ≤ r.overall_score)
    ∧ (∀ (l : List ScoredReport) (r : ScoredReport),
        r ∈ yellow_alerts l ↔ r ∈ l ∧ 4 ≤ r.overall_score ∧ r.overall_score ≤ 6)
    ∧ (∀ (l : List ScoredReport) (r : ScoredReport),
        r ∈ normal_reports l ↔ r ∈ l ∧ r.overall_score < 4)
    ∧ (∀ n : ℤ, (4 ≤ (n : ℚ) ∧ (n : ℚ) ≤ 6) ↔ (4 ≤ (n : ℚ) ∧ (n : ℚ) < 7))
    ∧ (alert_type (399/100) = "正常" ∧ alert_type 4 = "黃色"
        ∧ alert_type 6 = "黃色" ∧ alert_type 7 = "紅色") := by
  refine ⟨?_, ?_, ?_, ?_, ?_, ?_, ?_, ?_⟩
  · intro s
    unfold alert_type
    split_ifs with h1 h2
    · simp [h1]
    · exact iff_of_false (by decide) h1
    · exact iff_of_false (by decide) h1
  · intro s
    unfold alert_type
    split_ifs with h1 h2
    · exact iff_of_false (by decide) (fun hc => absurd h1 (not_le.mpr hc.2))
    · exact iff_of_true rfl ⟨h2, not_le.mp h1⟩
    · exact iff_of_false (by decide) (fun hc => h2 hc.1)
  · intro s
    unfold alert_type
    split_ifs with h1 h2
    · exact iff_of_false (by decide)
        (fun hc => absurd h1 (not_le.mpr (lt_trans hc (by norm_num))))
    · exact iff_of_false (by decide) (fun hc => absurd h2 (not_le.mpr hc))
    · exact iff_of_true rfl (not_le.mp h2)
  · intro l r; simp [red_alerts, List.mem_filter]
  · intro l r; simp [yellow_alerts, List.mem_filter, and_assoc]
  · intro l r; simp [normal_reports, List.mem_filter]
  · intro n
    constructor
    · rintro ⟨h1, h2⟩
      refine ⟨h1, ?_⟩
      have h2' : n ≤ 6 := by exact_mod_cast h2
      have h3 : n < 7 := by omega
      exact_mod_cast h3
    · rintro ⟨h1, h2⟩
      refine ⟨h1, ?_⟩
      have h2' : n < 7 := by exact_mod_cast h2
      have h3 : n ≤ 6 := by omega
      exact_mod_cast h3
  · refine ⟨?_, ?_, ?_, ?_⟩ <;> simp [alert_type] <;> norm_num

/-- C1 (counterexample): the score 6.5 is a valid overall score with
4 <= 6.5 < 7, so the claim calls it yellow, yet the alert-distribution
filters of `render_alert_analysis` place it in no bucket (not yellow, not
red, not normal), even though the trend classifier in the same function
does call it yellow. -/
theorem yellow_filter_misses_six_point_five :
    (4 ≤ (13/2 : ℚ) ∧ (13/2 : ℚ) < 7)
    ∧ yellow_alerts [⟨13/2⟩] = []
    ∧ red_alerts [⟨13/2⟩] = []
    ∧ normal_reports [⟨13/2⟩] = []
    ∧ alert_type (13/2) = "黃色" := by
  refine ⟨⟨by norm_num, by norm_num⟩, ?_, ?_, ?_, ?_⟩ <;>
    simp [yellow_alerts, red_alerts, normal_reports, alert_type, List.filter_cons] <;>
    norm_num

/-- C1 (witness): the amended classification instantiated at score 7. -/
theorem alert_classification_amended_witness : alert_type 7 = "紅色" :=
  (alert_classification_amended.1 7).mpr (by norm_num)

/-- C4 (amended): `get_pending_alerts` returns exactly the reports whose
`alert_level` is red or yellow and whose `alert_handled` differs from `Y`
(any value other than `Y`, including the empty string, counts as pending —
not only the literal `N`). -/
theorem pending_alerts_characterization :
    ∀ (l : List Report) (r : Report),
      r ∈ getPendingAlerts l ↔
        r ∈ l ∧ (r.alert_level = "red" ∨ r.alert_level = "yellow")
          ∧ r.alert_handled ≠ "Y" := by
  intro l r
  simp [getPendingAlerts, List.mem_filter]

/-- C4 (counterexample): a yellow report whose `alert_handled` is the empty
string (not `N`) is returned by `get_pending_alerts`, so the result is not
exactly the set of reports with `alert_handled = N`. -/
theorem pending_alerts_includes_blank_handled :
    getPendingAlerts [{ report_id := "R1", patient_id := "P1", alert_level := "yellow" }] =
      [{ report_id := "R1", patient_id := "P1", alert_level := "yellow" }]
    ∧ ({ report_id := "R1", patient_id := "P1", alert_level := "yellow" } : Report).alert_handled ≠ "N" := by
  decide

/-- C4 (witness): the amended characterization instantiated on a handled
queue of one red, unhandled report. -/
theorem pending_alerts_characterization_witness :
    ({ report_id := "R1", alert_level := "red", alert_handled := "N" } : Report) ∈
      getPendingAlerts [{ report_id := "R1", alert_level := "red", alert_handled := "N" }] :=
  (pending_alerts_characterization
      [{ report_id := "R1", alert_level := "red", alert_handled := "N" }]
      { report_id := "R1", alert_level := "red", alert_handled := "N" }).mpr
    ⟨List.mem_cons_self _ _, Or.inl rfl, by decide⟩

/-- C8: when the backing store is unreachable or a call into it raises,
every list-type read (`get_all_patients_cached`, `get_all_reports_cached`,
`get_education_pushes_cached`) returns the empty collection, while
`create_patient` reports failure as `None` and `update_patient` reports
failure as `False` — reads fail open, writes fail closed. -/
theorem fail_open_reads_fail_closed_writes :
    ∀ (today : ℕ × ℕ × ℕ) (d : List (String × String)) (env : GenEnv)
      (nowIso pid : String) (updates : List (String × String))
      (po : Option String),
      getAllPatients .unreachable today = [] ∧ getAllPatients .failed today = []
      ∧ getAllReports .unreachable = [] ∧ getAllReports .failed = []
      ∧ getEducationPushes .unreachable po = [] ∧ getEducationPushes .failed po = []
      ∧ (createPatient .unreachable d env nowIso).1 = none
      ∧ (createPatient .failed d env nowIso).1 = none
      ∧ (updatePatient .unreachable pid updates).1 = false
      ∧ (updatePatient .failed pid updates).1 = false := by
  intro today d env nowIso pid updates po
  exact ⟨rfl, rfl, rfl, rfl, rfl, rfl, rfl, rfl, rfl, rfl⟩

/-- C9: when no row of the Patients table carries the target identifier,
`update_patient` returns `False` and performs no write: the stored rows
are returned unchanged. -/
theorem update_patient_not_found :
    ∀ (sheet : List (List String)) (pid : String)
      (updates : List (String × String)),
      (∀ row ∈ sheet, getCell row "patient_id" ≠ pid) →
      updatePatient (.ok sheet) pid updates = (false, sheet) := by
  intro sheet pid updates h
  simp only [updatePatient]
  exact updatePatientRows_not_found sheet pid updates h

/-- C9 (witness): updating the absent identifier `P002` on a one-row table
fails and leaves the table unchanged. -/
theorem update_patient_not_found_witness :
    updatePatient (.ok [["P001", "Alice"]]) "P002" [("name", "Bob")] =
      (false, [["P001", "Alice"]]) :=
  update_patient_not_found [["P001", "Alice"]] "P002" [("name", "Bob")] (by decide)

/-- C10: `normalize_phone` and `normalize_password` map `None` to the
empty string, and for every input the returned string contains no `'.'`
character (everything from the first dot onward is stripped). -/
theorem normalize_total_no_dot :
    normalizePhone none = "" ∧ normalizePassword none = ""
    ∧ (∀ x : Option CellVal, '.' ∉ (normalizePhone x).toList)
    ∧ (∀ x : Option CellVal, '.' ∉ (normalizePassword x).toList) := by
  refine ⟨rfl, rfl, ?_, ?_⟩
  · intro x
    cases x with
    | none => simp [normalizePhone]
    | some v => exact no_dot_normPhoneCore _
  · intro x
    cases x with
    | none => simp [normalizePassword]
    | some v => exact no_dot_normPwdCore _

/-- C10 (witness): the no-dot property instantiated on the numeric-artifact
phone string `0912345678.0`. -/
theorem normalize_total_no_dot_witness :
    '.' ∉ (normalizePhone (some (.str "0912345678.0"))).toList :=
  normalize_total_no_dot.2.2.1 (some (.str "0912345678.0"))

/-- C2 (amended): whenever at least one of the 100 tiered candidates of
`generate_unique_patient_id` avoids the existing-identifier set, the
returned identifier is not a member of that set (termination is inherent:
the attempt loop is bounded by 100 and the function is total by
construction).  The unconditional claim fails: the timestamp fallback is
returned without a membership check. -/
theorem generate_id_fresh_of_candidate_free :
    ∀ (sheet : List (List String)) (phone : String) (env : GenEnv),
      (∃ a ∈ List.range 100,
          (existingIds sheet).contains
            (candidateId env (lastChars 4 (normalizePhoneStr phone)) a) = false) →
      generateUniquePatientId sheet phone env ∉ existingIds sheet := by
  intro sheet phone env h
  simp only [generateUniquePatientId]
  cases hf : (List.range 100).find?
      (fun a => !((existingIds sheet).contains
        (candidateId env (lastChars 4 (normalizePhoneStr phone)) a))) with
  | none =>
      rw [List.find?_eq_none] at hf
      obtain ⟨a, ha, hc⟩ := h
      have : (!((existingIds sheet).contains
          (candidateId env (lastChars 4 (normalizePhoneStr phone)) a))) = true := by
        rw [hc]
        rfl
      exact absurd this (hf a ha)
  | some a =>
      have hp := List.find?_some hf
      have hp' : (existingIds sheet).contains
          (candidateId env (lastChars 4 (normalizePhoneStr phone)) a) = false := by
        simpa using hp
      intro hmem
      have hmem' : (existingIds sheet).contains
          (candidateId env (lastChars 4 (normalizePhoneStr phone)) a) = true :=
        List.elem_iff.mpr hmem
      rw [hmem'] at hp'
      cases hp'

/-- C2 (counterexample): with an existing-identifier set containing every
tiered candidate and the timestamp fallback, `generate_unique_patient_id`
returns the fallback, which is already a member of the set. -/
theorem generate_id_collision_exhausted :
    generateUniquePatientId
        [["P567810120830"], ["P56781012000"], ["PAAAAAA"], ["P20261012083000"]]
        "0912345678"
        { mmddhhmm := "10120830", mmdd := "1012", fullts := "20261012083000",
          rand3 := fun _ => "000", rand6 := fun _ => "AAAAAA" }
      ∈ existingIds [["P567810120830"], ["P56781012000"], ["PAAAAAA"], ["P20261012083000"]] := by
  decide

/-- C2 (witness): on an empty table the first candidate is free and the
generated identifier is fresh. -/
theorem generate_id_fresh_witness :
    generateUniquePatientId [] "0912345678"
        { mmddhhmm := "10120830", mmdd := "1012", fullts := "20261012083000",
          rand3 := fun _ => "000", rand6 := fun _ => "AAAAAA" }
      ∉ existingIds [] :=
  generate_id_fresh_of_candidate_free [] "0912345678"
    { mmddhhmm := "10120830", mmdd := "1012", fullts := "20261012083000",
      rand3 := fun _ => "000", rand6 := fun _ => "AAAAAA" }
    ⟨0, by decide, by decide⟩

/-- C3 (code-bug evaluation): creating a Patient with name `Test` and phone
`0912345678` on an empty Patients sheet and reading it back by the returned
identifier yields a record whose normalized phone is `0912345678` as
claimed, but whose `status` field is the empty string — the default
`pending_setup` was stored under the `diagnosis` column, because
`create_patient` appends a 17-value row against the 41-column declared
schema. -/
theorem create_patient_row_misalignment :
    ((createPatient (.ok []) [("name", "Test"), ("phone", "0912345678")]
        { mmddhhmm := "10120830", mmdd := "1012", fullts := "20261012083000",
          rand3 := fun _ => "000", rand6 := fun _ => "AAAAAA" }
        "2026-10-12T08:30:00").1 = some "P567810120830")
    ∧ ((getPatientById
          (.ok (createPatient (.ok []) [("name", "Test"), ("phone", "0912345678")]
            { mmddhhmm := "10120830", mmdd := "1012", fullts := "20261012083000",
              rand3 := fun _ => "000", rand6 := fun _ => "AAAAAA" }
            "2026-10-12T08:30:00").2)
          (2026, 10, 12) "P567810120830").map
        (fun r => (rget r "phone", rget r "status", rget r "diagnosis")) =
      some (some (.str "0912345678"), some (.str ""), some (.str "pending_setup"))) := by
  constructor
  · decide
  · decide

/-- C5: if some report in the table has the requested `report_id` and its
`alert_handled` is already `Y`, then `handle_alert` succeeds (returns
`True`), a repeated identical call is a no-op on the table (idempotent, no
duplicate stamping), no report's `alert_level` ever changes, and a report
whose `alert_handled` was `Y` still has `Y` afterwards (never reverted to
`N`). -/
theorem handle_alert_idempotent_on_handled :
    ∀ (table : List Report) (rid handler now action notes : String),
      (∃ r ∈ table, r.report_id = rid ∧ r.alert_handled = "Y") →
      (handleAlert table rid handler now action notes).1 = true
      ∧ handleAlert ((handleAlert table rid handler now action notes).2)
            rid handler now action notes =
          (true, (handleAlert table rid handler now action notes).2)
      ∧ (∀ i : ℕ,
          (((handleAlert table rid handler now action notes).2.get? i).map
              Report.alert_level) =
            ((table.get? i).map Report.alert_level))
      ∧ (∀ (i : ℕ) (r r' : Report),
          table.get? i = some r →
          (handleAlert table rid handler now action notes).2.get? i = some r' →
          r.alert_handled = "Y" → r'.alert_handled = "Y") := by
  intro table rid handler now action notes h
  have hx : ∃ r ∈ table, r.report_id = rid := by
    obtain ⟨r, hr, h1, _⟩ := h
    exact ⟨r, hr, h1⟩
  exact ⟨handleAlert_fst_true table rid handler now action notes hx,
    handleAlert_idem table rid handler now action notes hx,
    handleAlert_alert_level table rid handler now action notes,
    handleAlert_handled_preserved table rid handler now action notes⟩

/-- C5 (witness): the idempotent-handling theorem instantiated on a
one-report table whose alert is already handled. -/
theorem handle_alert_idempotent_witness :
    (handleAlert [{ report_id := "R1", alert_level := "yellow", alert_handled := "Y" }]
        "R1" "nurse02" "T1" "" "").1 = true
    ∧ handleAlert ((handleAlert
            [{ report_id := "R1", alert_level := "yellow", alert_handled := "Y" }]
            "R1" "nurse02" "T1" "" "").2) "R1" "nurse02" "T1" "" "" =
        (true, (handleAlert
            [{ report_id := "R1", alert_level := "yellow", alert_handled := "Y" }]
            "R1" "nurse02" "T1" "" "").2)
    ∧ (∀ i : ℕ,
        (((handleAlert [{ report_id := "R1", alert_level := "yellow", alert_handled := "Y" }]
              "R1" "nurse02" "T1" "" "").2.get? i).map Report.alert_level) =
          ((([{ report_id := "R1", alert_level := "yellow", alert_handled := "Y" }] :
              List Report).get? i).map Report.alert_level))
    ∧ (∀ (i : ℕ) (r r' : Report),
        ([{ report_id := "R1", alert_level := "yellow", alert_handled := "Y" }] :
            List Report).get? i = some r →
        (handleAlert [{ report_id := "R1", alert_level := "yellow", alert_handled := "Y" }]
            "R1" "nurse02" "T1" "" "").2.get? i = some r' →
        r.alert_handled = "Y" → r'.alert_handled = "Y") :=
  handle_alert_idempotent_on_handled
    [{ report_id := "R1", alert_level := "yellow", alert_handled := "Y" }]
    "R1" "nurse02" "T1" "" ""
    ⟨{ report_id := "R1", alert_level := "yellow", alert_handled := "Y" },
      List.mem_cons_self _ _, rfl, rfl⟩

/-- C6: for every patient record read through the repository,
`post_op_day` equals the day difference between the current date and the
parsed `surgery_date`, and equals 0 whenever `surgery_date` is absent,
empty, or unparseable. -/
theorem post_op_day_spec :
    ∀ (today : ℕ × ℕ × ℕ) (rec : RecordT),
      (rget rec "surgery_date" = none →
          rget (annotateRecord today rec) "post_op_day" = some (.int 0))
      ∧ (∀ (s : String) (ymd : ℕ × ℕ × ℕ),
          rget rec "surgery_date" = some (.str s) → s ≠ "" →
          parseDate s = some ymd →
          rget (annotateRecord today rec) "post_op_day" =
            some (.int (dateDiffDays today ymd)))
      ∧ (∀ s : String, rget rec "surgery_date" = some (.str s) →
          (s = "" ∨ parseDate s = none) →
          rget (annotateRecord today rec) "post_op_day" = some (.int 0)) := by
  intro today rec
  refine ⟨?_, ?_, ?_⟩
  · intro h
    simp only [annotateRecord]
    rw [rget_rset_self]
    rw [rget_rset_ne _ _ _ _ (show "surgery_date" ≠ "password" by decide)]
    rw [rget_rset_ne _ _ _ _ (show "surgery_date" ≠ "phone" by decide)]
    rw [h]
  · intro s ymd h hs hp
    simp only [annotateRecord]
    rw [rget_rset_self]
    rw [rget_rset_ne _ _ _ _ (show "surgery_date" ≠ "password" by decide)]
    rw [rget_rset_ne _ _ _ _ (show "surgery_date" ≠ "phone" by decide)]
    rw [h]
    have ht : (CellVal.str s).truthy = true := by
      simp [CellVal.truthy, hs]
    simp only [ht, if_true, pyStrOf, hp]
  · intro s h hcase
    simp only [annotateRecord]
    rw [rget_rset_self]
    rw [rget_rset_ne _ _ _ _ (show "surgery_date" ≠ "password" by decide)]
    rw [rget_rset_ne _ _ _ _ (show "surgery_date" ≠ "phone" by decide)]
    rw [h]
    rcases hcase with he | hp
    · have ht : (CellVal.str s).truthy = false := by
        simp [CellVal.truthy, he]
      simp only [ht, Bool.false_eq_true, if_false]
    · cases ht : (CellVal.str s).truthy with
      | false => simp only [ht, Bool.false_eq_true, if_false]
      | true => simp only [ht, if_true, pyStrOf, hp]

/-- C6 (witness): `post_op_day` is 10 for a surgery date 10 days ago, 0
for a surgery date of today, and 0 for a missing surgery date. -/
theorem post_op_day_witness :
    rget (annotateRecord (2026, 10, 12) [("surgery_date", CellVal.str "2026-10-02")])
        "post_op_day" = some (.int 10)
    ∧ rget (annotateRecord (2026, 10, 12) [("surgery_date", CellVal.str "2026-10-12")])
        "post_op_day" = some (.int 0)
    ∧ rget (annotateRecord (2026, 10, 12) [("name", CellVal.str "x")])
        "post_op_day" = some (.int 0) := by
  refine ⟨?_, ?_, ?_⟩
  · have h := ((post_op_day_spec (2026, 10, 12)
        [("surgery_date", CellVal.str "2026-10-02")]).2.1) "2026-10-02" (2026, 10, 2)
        (by decide) (by decide) (by decide)
    rw [h]
    decide
  · have h := ((post_op_day_spec (2026, 10, 12)
        [("surgery_date", CellVal.str "2026-10-12")]).2.1) "2026-10-12" (2026, 10, 12)
        (by decide) (by decide) (by decide)
    rw [h]
    decide
  · exact ((post_op_day_spec (2026, 10, 12) [("name", CellVal.str "x")]).1) (by decide)

/-- C7 (amended): `normalize_phone` is idempotent on every input string
containing no whitespace character, and it identifies a 9-digit number
with its leading-zero form: normalize(`912345678`) =
normalize(`0912345678`).  Unrestricted idempotence fails when whitespace
precedes the first dot. -/
theorem normalize_phone_idempotent_amended :
    (∀ s : String, (∀ c ∈ s.toList, isPyWs c = false) →
        normalizePhoneStr (normalizePhoneStr s) = normalizePhoneStr s)
    ∧ normalizePhoneStr "912345678" = normalizePhoneStr "0912345678" := by
  refine ⟨?_, ?_⟩
  · intro s h
    exact normalizePhoneStr_idem_of_no_ws s h
  · decide

/-- C7 (counterexample): for the input `0912345 .0` the first
normalization yields `0912345 ` (trailing space kept from the dot-truncated
prefix) and a second normalization strips it, so
normalize(normalize(x)) differs from normalize(x). -/
theorem normalize_phone_not_idempotent :
    normalizePhoneStr (normalizePhoneStr "0912345 .0") ≠
      normalizePhoneStr "0912345 .0" := by
  decide

/-- C7 (witness): idempotence instantiated at the whitespace-free input
`912345678`. -/
theorem normalize_phone_idempotent_witness :
    normalizePhoneStr (normalizePhoneStr "912345678") = normalizePhoneStr "912345678" :=
  normalize_phone_idempotent_amended.1 "912345678" (by decide)
